import Mathlib

/-!
Shallow embedding of the Job engine of ffuf-mini (package `ffuf`, file
`job.go`).  The Go code is stateful and effectful; here each operation is
translated into a pure Lean function.  Go `int` fields are modelled as `Int`
(list cursors that are only ever non-negative are modelled as `Nat` where
noted), Go `float64` ratios are modelled exactly over `ℚ`, Go `error`
results become `Except String`, and the side effects of a worker task
(counter increments, memory releases, result emissions, queue appends) are
collected in an explicit `Effects` record.
-/

namespace FfufSpec

/-- Translation of `QueueJob` (job.go lines 42-45): a queued recursion
target, a URL plus its recursion depth. -/
structure QueueJob where
  url : String
  depth : Int
deriving DecidableEq, Repr

/-- Observable attributes of a `Response` used by the Job engine:
`StatusCode`, `Request.Url`, and the raw (`GetRedirectLocation(false)`) and
absolute (`GetRedirectLocation(true)`) redirect locations. -/
structure Response where
  statusCode : Int
  requestUrl : String
  redirectRaw : String
  redirectAbs : String
deriving DecidableEq, Repr

/-- Matcher and filter predicates (`FilterProvider.Filter`): a predicate on
a response that may also fail with an error. -/
def Pred : Type := Response → Except String Bool

/-- Fields of `Config` consumed by job.go.  Matchers and filters are kept
as the predicate functions themselves. -/
structure Config where
  url : String
  threads : Int
  matchers : List Pred
  filters : List Pred
  recursion : Bool
  recursionStrategy : String
  recursionDepth : Int
  stopOn403 : Bool
  stopOnErrors : Bool
  stopOnAll : Bool
  maxTime : Int
  maxTimeJob : Int

/-- State fields of the `Job` struct (job.go lines 15-40) that the claims
are about.  `inputPos` models the `InputProvider` cursor, `cancelled`
models the global cancellation token triggered by `Config.Cancel()`, and
the wall-clock anchors are modelled as integer timestamps. -/
structure JobState where
  counter : Int
  errorCounter : Int
  spuriousErrorCounter : Int
  total : Int
  running : Bool
  runningJob : Bool
  paused : Bool
  count403 : Int
  count429 : Int
  error : String
  startTime : Int
  startTimeJob : Int
  queuejobs : List QueueJob
  queuepos : Nat
  skipQueue : Bool
  currentDepth : Int
  inputPos : Nat
  cancelled : Bool
deriving DecidableEq, Repr

/-- Translation of the filter loop of `isMatch` (job.go lines 317-326): the
filters are consulted in order; an error skips the filter (`continue`), a
`true` verdict rejects immediately, otherwise the loop continues.  Returns
`true` iff some filter rejected the response. -/
def runFilters (fs : List Pred) (r : Response) : Bool :=
  match fs with
  | [] => false
  | f :: rest =>
    match f r with
    | Except.error _ => runFilters rest r
    | Except.ok true => true
    | Except.ok false => runFilters rest r

/-- Translation of the matcher loop of `isMatch` (job.go lines 302-311):
`matched` starts false and is set whenever a matcher returns `true`;
matcher errors are skipped (`continue`). -/
def anyMatcher (ms : List Pred) (r : Response) : Bool :=
  ms.foldl
    (fun acc m =>
      match m r with
      | Except.error _ => acc
      | Except.ok b => acc || b) false

/-- Translation of `isMatch` (job.go lines 301-329).  The first component
is the returned verdict; the second counts the `resp.MakeFreeMemory()`
calls made inside `isMatch` (lines 314, 323 and 327: exactly one on every
path). -/
def isMatch (cfg : Config) (resp : Response) : Bool × Nat :=
  let matched := anyMatcher cfg.matchers resp
  if !matched then (false, 1)
  else if runFilters cfg.filters resp then (false, 1)
  else (true, 1)

/-- Side effects of one `runTask` (or calibration step) invocation:
`incError` calls, `Runner.Execute` calls, `resp.MakeFreeMemory()` calls,
emitted results, queue targets appended by the recursion handlers, and
`inc403`/`inc429` increments. -/
structure Effects where
  errorIncs : Nat
  executeCalls : Nat
  freeCalls : Nat
  results : List Response
  appended : List QueueJob
  inc403 : Nat
  inc429 : Nat
deriving DecidableEq, Repr

/-- Empty effects record. -/
def Effects.zero : Effects :=
  { errorIncs := 0, executeCalls := 0, freeCalls := 0, results := [],
    appended := [], inc403 := 0, inc429 := 0 }

/-- Outcomes of the external runner providers for one input: the result of
`Runner.Prepare` (deterministic in the input, so identical on the retry),
the result of `Runner.Execute` on the first attempt (`execute false`) and
on the retry (`execute true`), and the replay runner: `none` when
`ReplayRunner` is nil, otherwise the result of `ReplayRunner.Prepare`
(the result of `ReplayRunner.Execute` is discarded by the code). -/
structure Oracle where
  prepare : Except String Unit
  execute : Bool → Except String Response
  replay : Option (Except String Unit)

/-- Translation of `handleGreedyRecursionJob` (job.go lines 396-406): if
the depth budget allows, append one target at `currentDepth + 1` whose URL
is the request URL extended with the `FUZZ` placeholder; otherwise append
nothing (the code only logs a warning). -/
def handleGreedyRecursionJob (cfg : Config) (currentDepth : Int)
    (resp : Response) : List QueueJob :=
  if cfg.recursionDepth = 0 ∨ currentDepth < cfg.recursionDepth then
    [{ url := resp.requestUrl ++ "/" ++ "FUZZ", depth := currentDepth + 1 }]
  else []

/-- Translation of `handleDefaultRecursionJob` (job.go lines 410-424):
return early ("not a directory") unless the absolute redirect location is
exactly the request URL with a trailing slash; then append one target at
`currentDepth + 1` if the depth budget allows. -/
def handleDefaultRecursionJob (cfg : Config) (currentDepth : Int)
    (resp : Response) : List QueueJob :=
  if resp.requestUrl ++ "/" ≠ resp.redirectAbs then []
  else if cfg.recursionDepth = 0 ∨ currentDepth < cfg.recursionDepth then
    [{ url := resp.requestUrl ++ "/" ++ "FUZZ", depth := currentDepth + 1 }]
  else []

/-- Effects of the tail of `runTask` after a successful `Runner.Execute`
(job.go lines 350-392): the 403/429 counting, the `isMatch` classification
(which itself frees the response once), the replay request on a match
(whose prepare error calls `incError`), the result emission, the greedy
recursion handler inside the match block, the unconditional
`resp.MakeFreeMemory()` at line 388, and the default recursion handler
guarded by a non-empty raw redirect location. -/
def runTaskSuccess (cfg : Config) (currentDepth : Int) (o : Oracle)
    (resp : Response) : Effects :=
  let mf := isMatch cfg resp
  let replayIncs : Nat :=
    if mf.1 then
      match o.replay with
      | some (Except.error _) => 1
      | _ => 0
    else 0
  let greedy : List QueueJob :=
    if mf.1 ∧ cfg.recursion ∧ cfg.recursionStrategy = "greedy" then
      handleGreedyRecursionJob cfg currentDepth resp
    else []
  let dflt : List QueueJob :=
    if cfg.recursion ∧ cfg.recursionStrategy = "default" ∧
        0 < resp.redirectRaw.length then
      handleDefaultRecursionJob cfg currentDepth resp
    else []
  { errorIncs := replayIncs,
    executeCalls := 1,
    freeCalls := mf.2 + 1,
    results := if mf.1 then [resp] else [],
    appended := greedy ++ dflt,
    inc403 := if (cfg.stopOn403 ∨ cfg.stopOnAll) ∧ resp.statusCode = 403
      then 1 else 0,
    inc429 := if cfg.stopOnAll ∧ resp.statusCode = 429 then 1 else 0 }

/-- Body of `runTask` (job.go lines 331-393) with the recursive self-call
abstracted as the argument `retry`: a prepare error calls `incError` and
returns without executing; an execute error either calls `incError` (when
`retried` is already set) or takes the value of the retry; a successful
execute proceeds to `runTaskSuccess`. -/
def runTaskStep (cfg : Config) (currentDepth : Int) (o : Oracle)
    (retried : Bool) (retry : Effects) : Effects :=
  match o.prepare with
  | Except.error _ =>
    { Effects.zero with errorIncs := 1 }
  | Except.ok _ =>
    match o.execute retried with
    | Except.error _ =>
      if retried then { Effects.zero with errorIncs := 1, executeCalls := 1 }
      else { retry with executeCalls := retry.executeCalls + 1 }
    | Except.ok resp => runTaskSuccess cfg currentDepth o resp

/-- Translation of `runTask` (job.go lines 331-393).  The code recurses at
most once (line 346 calls itself with `retried = true`, and that call can
no longer recurse), so the recursion is tied explicitly: the first attempt
feeds the retried attempt in as its `retry` continuation.  The retried
attempt never consults its own `retry` argument. -/
def runTask (cfg : Config) (currentDepth : Int) (o : Oracle)
    (retried : Bool) : Effects :=
  if retried then runTaskStep cfg currentDepth o true Effects.zero
  else runTaskStep cfg currentDepth o false
    (runTaskStep cfg currentDepth o true Effects.zero)

/-- Effects of one iteration of the calibration loop of
`CalibrateResponses` (job.go lines 440-464) for one synthetic input: a
prepare error increments the error counter and aborts, an execute error
aborts, and otherwise the response is classified by `isMatch` (one free
inside), freed once more when accepted (line 460) and once
unconditionally (line 463). -/
def calibrateStep (cfg : Config) (prep : Except String Unit)
    (exec : Except String Response) : Effects :=
  match prep with
  | Except.error _ => { Effects.zero with errorIncs := 1 }
  | Except.ok _ =>
    match exec with
    | Except.error _ => { Effects.zero with executeCalls := 1 }
    | Except.ok resp =>
      let mf := isMatch cfg resp
      if mf.1 then
        { Effects.zero with
          executeCalls := 1, freeCalls := mf.2 + 1 + 1, results := [resp] }
      else
        { Effects.zero with executeCalls := 1, freeCalls := mf.2 + 1 }

/-- Error message set at job.go line 475. -/
def msg403 : String := "Getting an unusual amount of 403 responses, exiting."

/-- Error message set at job.go line 482. -/
def msgSpurious : String := "Receiving spurious errors, exiting."

/-- Error message set at job.go line 489. -/
def msg429 : String := "Getting an unusual amount of 429 responses, exiting."

/-- Error message set at job.go line 499. -/
def msgMaxTime : String :=
  "Maximum running time for entire process reached, exiting."

/-- Error message set at job.go line 509. -/
def msgMaxJob : String :=
  "Maximum running time for this job reached, continuing with next job if one exists."

/-- Observable stop actions taken by `CheckStop`: each constructor records
an `Error` assignment immediately followed by a `Stop()` or `Next()`
call. -/
inductive StopEvent where
  | stop (msg : String)
  | next (msg : String)
deriving DecidableEq, Repr

/-- Stop actions of the adaptive part of `CheckStop` (job.go lines
470-492), in program order.  The float64 ratios of the source are modelled
exactly over `ℚ`; the guards mirror the nested conditionals of the code
(flattened to conjunctions). -/
def adaptiveEvents (cfg : Config) (s : JobState) : List StopEvent :=
  if 50 < s.counter then
    (if (cfg.stopOn403 ∨ cfg.stopOnAll) ∧
        (95 / 100 : ℚ) < (s.count403 : ℚ) / (s.counter : ℚ) then
      [StopEvent.stop msg403]
    else []) ++
    (if (cfg.stopOnErrors ∨ cfg.stopOnAll) ∧
        cfg.threads * 2 < s.spuriousErrorCounter then
      [StopEvent.stop msgSpurious]
    else []) ++
    (if cfg.stopOnAll ∧ (2 / 10 : ℚ) < (s.count429 : ℚ) / (s.counter : ℚ) then
      [StopEvent.stop msg429]
    else [])
  else []

/-- Stop actions of the wall-clock part of `CheckStop` (job.go lines
495-513): the total-runtime check calls `Stop()`, the per-target check
calls `Next()`.  `elapsedSecs` and `elapsedJobSecs` are the source's
`int(dur / time.Second)` values for `startTime` and `startTimeJob`. -/
def timeEvents (cfg : Config) (elapsedSecs elapsedJobSecs : Int) :
    List StopEvent :=
  (if 0 < cfg.maxTime ∧ cfg.maxTime ≤ elapsedSecs then
    [StopEvent.stop msgMaxTime]
  else []) ++
  (if 0 < cfg.maxTimeJob ∧ cfg.maxTimeJob ≤ elapsedJobSecs then
    [StopEvent.next msgMaxJob]
  else [])

/-- Stop actions of one whole `CheckStop` call (job.go lines 469-514), in
program order. -/
def checkStopEvents (cfg : Config) (elapsedSecs elapsedJobSecs : Int)
    (s : JobState) : List StopEvent :=
  adaptiveEvents cfg s ++ timeEvents cfg elapsedSecs elapsedJobSecs

/-- Translation of `Stop` (job.go lines 517-520): clear the global running
flag and cancel the global cancellation token (`Config.Cancel()`). -/
def Stop (s : JobState) : JobState :=
  { s with running := false, cancelled := true }

/-- Translation of `Next` (job.go lines 523-525): clear only the
per-target running flag. -/
def Next (s : JobState) : JobState :=
  { s with runningJob := false }

/-- State change of one stop action: the code assigns `j.Error` and then
calls `Stop()` or `Next()`. -/
def applyEvent (s : JobState) : StopEvent → JobState
  | StopEvent.stop m => Stop { s with error := m }
  | StopEvent.next m => Next { s with error := m }

/-- State after one `CheckStop` call: the stop actions applied in program
order. -/
def checkStop (cfg : Config) (elapsedSecs elapsedJobSecs : Int)
    (s : JobState) : JobState :=
  (checkStopEvents cfg elapsedSecs elapsedJobSecs s).foldl applyEvent s

/-- Translation of `Reset` (job.go lines 138-148): reset the input
provider cursor, zero the per-target dispatch counter, clear `skipQueue`
and record a fresh `startTimeJob`.  The `cycle` argument only selects
between the `Output.Cycle()` and `Output.Reset()` output effects and does
not touch the job state. -/
def Reset (s : JobState) (_cycle : Bool) (now : Int) : JobState :=
  { s with
    inputPos := 0, counter := 0, skipQueue := false, startTimeJob := now }

/-- Translation of `DeleteQueueItem` (job.go lines 94-97): the passed
index is rebased by `queuepos + index - 1` and that element of the
underlying queue is removed (`append(q[:idx], q[idx+1:]...)`).  Cursor
arithmetic is over `Nat`; for `1 ≤ queuepos` this agrees with the Go `int`
arithmetic. -/
def DeleteQueueItem (queuejobs : List QueueJob) (queuepos : Nat)
    (index : Nat) : List QueueJob :=
  let idx := queuepos + index - 1
  queuejobs.take idx ++ queuejobs.drop (idx + 1)

/-- Translation of `QueuedJobs` (job.go lines 100-102): the visible slice
`queuejobs[queuepos-1:]`, the current target plus the pending ones. -/
def QueuedJobs (queuejobs : List QueueJob) (queuepos : Nat) :
    List QueueJob :=
  queuejobs.drop (queuepos - 1)

/-- Number of `Output.Finalize` calls made by the dispatch loop of
`startExecution` (job.go lines 214-247): the call at line 228 runs once
per dispatched input, i.e. once per loop iteration that passes the
running/skip checks. -/
def startExecutionFinalizeCalls (dispatched : Nat) : Nat := dispatched

/-- Number of `Output.Finalize` calls made by one run of `Start` (job.go
lines 105-135), given the number of inputs dispatched for each processed
queue target: the per-target dispatch loops (line 228) plus the single
call at line 131 after the queue drains. -/
def startFinalizeCalls (dispatchedPerTarget : List Nat) : Nat :=
  (dispatchedPerTarget.map startExecutionFinalizeCalls).sum + 1

/-! Concrete instances used to evaluate the model on small inputs. -/

/-- Generic error payload for injected failures. -/
def errMsg : String := "injected failure"

/-- Matcher that accepts every response. -/
def matchAll : Pred := fun _ => Except.ok true

/-- Plain 200 response with no redirect. -/
def respOk : Response :=
  { statusCode := 200, requestUrl := "http://h/admin", redirectRaw := "",
    redirectAbs := "" }

/-- Directory-style 301 response: the server redirected the request URL to
its trailing-slash form. -/
def respDir : Response :=
  { statusCode := 301, requestUrl := "http://h/admin",
    redirectRaw := "/admin/", redirectAbs := "http://h/admin/" }

/-- Baseline configuration: no matchers, no filters, no recursion, no stop
flags. -/
def cfgPlain : Config :=
  { url := "http://h/FUZZ", threads := 4, matchers := [], filters := [],
    recursion := false, recursionStrategy := "default", recursionDepth := 0,
    stopOn403 := false, stopOnErrors := false, stopOnAll := false,
    maxTime := 0, maxTimeJob := 0 }

/-- Configuration with one always-true matcher. -/
def cfgMatchAll : Config := { cfgPlain with matchers := [matchAll] }

/-- Configuration with `-sf` (stop on 403) set. -/
def cfgStop403 : Config := { cfgPlain with stopOn403 := true }

/-- Configuration with default-strategy recursion enabled, unbounded
depth, and an always-true matcher. -/
def cfgDefRec : Config := { cfgMatchAll with recursion := true }

/-- Configuration with greedy-strategy recursion, depth bound 2. -/
def cfgGreedyW : Config :=
  { cfgMatchAll with
    recursion := true, recursionStrategy := "greedy", recursionDepth := 2 }

/-- Oracle for a task whose prepare and execute always succeed, no replay
runner. -/
def oSuccess : Oracle :=
  { prepare := Except.ok (), execute := fun _ => Except.ok respOk,
    replay := none }

/-- Oracle for a task whose prepare fails. -/
def oPrepErr : Oracle := { oSuccess with prepare := Except.error errMsg }

/-- Oracle for a task whose execute fails on both attempts. -/
def oBothErr : Oracle :=
  { oSuccess with execute := fun _ => Except.error errMsg }

/-- Oracle for a task whose execute fails on the first attempt and
succeeds on the retry. -/
def oRetryOk : Oracle :=
  { oSuccess with
    execute := fun b => if b then Except.ok respOk else Except.error errMsg }

/-- Oracle like `oRetryOk` but with a replay runner whose prepare fails. -/
def oRetryReplayErr : Oracle :=
  { oRetryOk with replay := some (Except.error errMsg) }

/-- Oracle returning the directory-style response. -/
def oDir : Oracle := { oSuccess with execute := fun _ => Except.ok respDir }

/-- Job state with every counter at zero and both running flags set. -/
def sBase : JobState :=
  { counter := 0, errorCounter := 0, spuriousErrorCounter := 0, total := 0,
    running := true, runningJob := true, paused := false, count403 := 0,
    count429 := 0, error := "", startTime := 0, startTimeJob := 0,
    queuejobs := [], queuepos := 0, skipQueue := false, currentDepth := 0,
    inputPos := 0, cancelled := false }

/-- Job state after 51 dispatched inputs of which 49 returned 403. -/
def s403 : JobState := { sBase with counter := 51, count403 := 49 }

/-- First queued target used in the queue examples. -/
def jobA : QueueJob := { url := "http://h/a/FUZZ", depth := 1 }

/-- Second queued target used in the queue examples. -/
def jobB : QueueJob := { url := "http://h/b/FUZZ", depth := 1 }

/-- Third queued target used in the queue examples. -/
def jobC : QueueJob := { url := "http://h/c/FUZZ", depth := 1 }

/-- Three-element queue used in the queue examples. -/
def qABC : List QueueJob := [jobA, jobB, jobC]

/-- Target produced by the recursion handlers for `respOk` at depth 0. -/
def jobFuzz : QueueJob := { url := "http://h/admin/FUZZ", depth := 1 }

/-! Helper lemmas. -/

theorem foldl_matchers_eq_true (ms : List Pred) (r : Response) (b : Bool) :
    (ms.foldl
      (fun acc m =>
        match m r with
        | Except.error _ => acc
        | Except.ok v => acc || v) b) = true ↔
      b = true ∨ ∃ m ∈ ms, m r = Except.ok true := by
  induction ms generalizing b with
  | nil => simp
  | cons m ms ih =>
    simp only [List.foldl_cons]
    cases hm : m r with
    | error e =>
      rw [ih, List.exists_mem_cons_iff]
      simp [hm]
    | ok v =>
      rw [ih, List.exists_mem_cons_iff]
      cases v <;> simp [hm]

theorem anyMatcher_eq_true_iff (ms : List Pred) (r : Response) :
    anyMatcher ms r = true ↔ ∃ m ∈ ms, m r = Except.ok true := by
  unfold anyMatcher
  rw [foldl_matchers_eq_true]
  simp

theorem runFilters_eq_true_iff (fs : List Pred) (r : Response) :
    runFilters fs r = true ↔ ∃ f ∈ fs, f r = Except.ok true := by
  induction fs with
  | nil => simp [runFilters]
  | cons f fs ih =>
    cases hf : f r with
    | error e => simp [runFilters, hf, ih, List.exists_mem_cons_iff]
    | ok v =>
      cases v <;> simp [runFilters, hf, ih, List.exists_mem_cons_iff]

theorem isMatch_fst (cfg : Config) (r : Response) :
    (isMatch cfg r).1 =
      (anyMatcher cfg.matchers r && !runFilters cfg.filters r) := by
  unfold isMatch
  cases hA : anyMatcher cfg.matchers r <;>
    cases hF : runFilters cfg.filters r <;> simp [hA, hF]

theorem isMatch_snd (cfg : Config) (r : Response) : (isMatch cfg r).2 = 1 := by
  unfold isMatch
  cases hA : anyMatcher cfg.matchers r <;>
    cases hF : runFilters cfg.filters r <;> simp [hA, hF]

theorem msg403_ne_msgSpurious : msg403 ≠ msgSpurious := by decide

theorem msg403_ne_msg429 : msg403 ≠ msg429 := by decide

theorem msgSpurious_ne_msg429 : msgSpurious ≠ msg429 := by decide

theorem msgMaxTime_ne_msg403 : msgMaxTime ≠ msg403 := by decide

theorem msgMaxTime_ne_msgSpurious : msgMaxTime ≠ msgSpurious := by decide

theorem msgMaxTime_ne_msg429 : msgMaxTime ≠ msg429 := by decide

theorem mem_adaptive_403 (cfg : Config) (s : JobState) :
    StopEvent.stop msg403 ∈ adaptiveEvents cfg s ↔
      50 < s.counter ∧ (cfg.stopOn403 ∨ cfg.stopOnAll) ∧
        (95 / 100 : ℚ) < (s.count403 : ℚ) / (s.counter : ℚ) := by
  unfold adaptiveEvents
  split_ifs with hc h1 h2 h3 <;>
    simp_all [msg403_ne_msgSpurious, msg403_ne_msg429]

theorem mem_adaptive_spurious (cfg : Config) (s : JobState) :
    StopEvent.stop msgSpurious ∈ adaptiveEvents cfg s ↔
      50 < s.counter ∧ (cfg.stopOnErrors ∨ cfg.stopOnAll) ∧
        cfg.threads * 2 < s.spuriousErrorCounter := by
  unfold adaptiveEvents
  split_ifs with hc h1 h2 h3 <;>
    simp_all [msg403_ne_msgSpurious.symm, msgSpurious_ne_msg429]

theorem mem_adaptive_429 (cfg : Config) (s : JobState) :
    StopEvent.stop msg429 ∈ adaptiveEvents cfg s ↔
      50 < s.counter ∧ cfg.stopOnAll ∧
        (2 / 10 : ℚ) < (s.count429 : ℚ) / (s.counter : ℚ) := by
  unfold adaptiveEvents
  split_ifs with hc h1 h2 h3 <;>
    simp_all [msg403_ne_msg429.symm, msgSpurious_ne_msg429.symm]

theorem adaptiveEvents_eq_nil_of_le (cfg : Config) (s : JobState)
    (h : s.counter ≤ 50) : adaptiveEvents cfg s = [] := by
  unfold adaptiveEvents
  rw [if_neg]
  omega

theorem next_not_mem_adaptive (cfg : Config) (s : JobState) (m : String) :
    StopEvent.next m ∉ adaptiveEvents cfg s := by
  unfold adaptiveEvents
  split_ifs <;> simp

theorem stop_maxTime_not_mem_adaptive (cfg : Config) (s : JobState) :
    StopEvent.stop msgMaxTime ∉ adaptiveEvents cfg s := by
  unfold adaptiveEvents
  split_ifs <;>
    simp [msgMaxTime_ne_msg403, msgMaxTime_ne_msgSpurious, msgMaxTime_ne_msg429]

theorem mem_time_next (cfg : Config) (eT eJ : Int) (m : String) :
    StopEvent.next m ∈ timeEvents cfg eT eJ ↔
      m = msgMaxJob ∧ 0 < cfg.maxTimeJob ∧ cfg.maxTimeJob ≤ eJ := by
  unfold timeEvents
  split_ifs <;> simp_all

theorem mem_time_stop_maxTime (cfg : Config) (eT eJ : Int) :
    StopEvent.stop msgMaxTime ∈ timeEvents cfg eT eJ ↔
      0 < cfg.maxTime ∧ cfg.maxTime ≤ eT := by
  unfold timeEvents
  split_ifs <;> simp_all

theorem runFilters_eq_false_iff (fs : List Pred) (r : Response) :
    runFilters fs r = false ↔ ∀ f ∈ fs, f r ≠ Except.ok true := by
  constructor
  · intro h f hf hc
    have ht := (runFilters_eq_true_iff fs r).mpr ⟨f, hf, hc⟩
    rw [h] at ht
    exact Bool.false_ne_true ht
  · intro h
    cases hrf : runFilters fs r with
    | false => rfl
    | true =>
      rcases (runFilters_eq_true_iff fs r).mp hrf with ⟨f, hf, hc⟩
      exact absurd hc (h f hf)

theorem anyMatcher_eq_false (ms : List Pred) (r : Response)
    (h : ∀ m ∈ ms, m r ≠ Except.ok true) : anyMatcher ms r = false := by
  cases hA : anyMatcher ms r with
  | false => rfl
  | true =>
    rcases (anyMatcher_eq_true_iff ms r).mp hA with ⟨m, hm, hc⟩
    exact absurd hc (h m hm)

theorem append_slash_fuzz (s : String) : s ++ "/" ++ "FUZZ" = s ++ "/FUZZ" := by
  rw [String.append_assoc]
  have h : "/" ++ "FUZZ" = "/FUZZ" := by decide
  rw [h]

theorem drop_eraseIdx_add {α : Type} (l : List α) (c i : Nat) :
    (l.eraseIdx (c + i)).drop c = (l.drop c).eraseIdx i := by
  induction l generalizing c with
  | nil => simp
  | cons x xs ih =>
    cases c with
    | zero => simp
    | succ c =>
      have h : c.succ + i = (c + i).succ := by omega
      rw [h, List.eraseIdx_cons_succ, List.drop_succ_cons,
        List.drop_succ_cons, ih]

/-! Claim theorems. -/

/-- C1: the claim (and the spec) say `Output.Finalize` is called exactly
once per run, at termination, and never inside the per-input dispatch
loop.  The code disagrees: `startExecution` calls `j.Output.Finalize()` at
line 228 for every dispatched input (under the leftover comment "test with
finalize"), in addition to the single call at line 131 after the queue
drains.  On a run with one queued target dispatching a single input the
code makes 2 finalize calls, not 1. -/
theorem C1_finalize_called_in_dispatch_loop :
    startFinalizeCalls [1] = 2 ∧ startFinalizeCalls [1] ≠ 1 := by decide

/-- C2 counterexample: for a response successfully returned by the runner
and processed by `runTask` (here: no matchers, so `isMatch` rejects it),
`MakeFreeMemory` is invoked twice — once inside `isMatch` (line 314) and
once by `runTask` (line 388) — refuting "exactly once ... never twice". -/
theorem C2_counterexample_free_called_twice :
    (runTask cfgPlain 0 oSuccess false).freeCalls = 2 ∧
      ¬(runTask cfgPlain 0 oSuccess false).freeCalls = 1 := by decide

/-- C2 amended: every response returned by the runner is released at least
once, but not exactly once: on every `runTask` path with a successful
execute the release hook runs exactly twice (once inside `isMatch`, once
after the match block), and in `CalibrateResponses` a calibration-accepted
response is released three times and a rejected one twice. -/
theorem C2_free_memory_amended (cfg : Config) (d : Int) (o : Oracle)
    (retried : Bool) (resp r2 : Response) :
    (o.prepare = Except.ok () → o.execute retried = Except.ok resp →
      (runTask cfg d o retried).freeCalls = 2) ∧
    (calibrateStep cfg (Except.ok ()) (Except.ok r2)).freeCalls =
      (if (isMatch cfg r2).1 then 3 else 2) ∧
    0 < (calibrateStep cfg (Except.ok ()) (Except.ok r2)).freeCalls := by
  refine ⟨fun hp he => ?_, ?_, ?_⟩
  · cases retried <;>
      simp [runTask, runTaskStep, hp, he, runTaskSuccess, isMatch_snd]
  · by_cases h : (isMatch cfg r2).1 <;>
      simp [calibrateStep, h, isMatch_snd]
  · by_cases h : (isMatch cfg r2).1 <;>
      simp [calibrateStep, h, isMatch_snd]

/-- C2 witness for the amended theorem: a concrete successful task is
released exactly twice, and a concrete rejected calibration response
exactly twice. -/
theorem C2_free_memory_amended_witness :
    (runTask cfgMatchAll 0 oSuccess false).freeCalls = 2 ∧
      (calibrateStep cfgPlain (Except.ok ()) (Except.ok respOk)).freeCalls =
        (if (isMatch cfgPlain respOk).1 then 3 else 2) :=
  ⟨(C2_free_memory_amended cfgMatchAll 0 oSuccess false respOk respOk).1
      rfl rfl,
    (C2_free_memory_amended cfgPlain 0 oSuccess false respOk respOk).2.1⟩

/-- C3 counterexample: with queue `[jobA, jobB, jobC]`, cursor 1 and
1-based visible index `i = 1`, the claim says `deleteAt` removes
`queue[cursor-1+(i-1)] = queue[0] = jobA`, leaving `[jobB, jobC]`; the
code rebases to `queuepos + index - 1 = 1` and removes `jobB`, leaving
`[jobA, jobC]`. -/
theorem C3_counterexample_deleteAt_off_by_one :
    DeleteQueueItem qABC 1 1 = [jobA, jobC] ∧
      DeleteQueueItem qABC 1 1 ≠ qABC.eraseIdx (1 - 1 + (1 - 1)) := by
  decide

/-- C3 amended: for cursor ≥ 1, `deleteAt(i)` removes exactly the
underlying element `queue[(cursor-1)+i]` — i.e. `i` acts as a 0-based
index into the visible slice `visible() = queue[cursor-1:]` (equivalently
the 1-based visible entry `i+1`) — leaving all other entries in order:
the visible slice after deletion is the old visible slice with its 0-based
entry `i` erased. -/
theorem C3_deleteAt_amended (q : List QueueJob) (cursor i : Nat)
    (h : 1 ≤ cursor) :
    DeleteQueueItem q cursor i = q.eraseIdx (cursor - 1 + i) ∧
      QueuedJobs (DeleteQueueItem q cursor i) cursor =
        (QueuedJobs q cursor).eraseIdx i := by
  have hidx : cursor + i - 1 = cursor - 1 + i := by omega
  have h1 : DeleteQueueItem q cursor i = q.eraseIdx (cursor - 1 + i) := by
    unfold DeleteQueueItem
    rw [List.eraseIdx_eq_take_drop_succ, hidx]
  refine ⟨h1, ?_⟩
  unfold QueuedJobs
  rw [h1, drop_eraseIdx_add]

/-- C3 witness for the amended theorem at queue `[jobA, jobB, jobC]`,
cursor 1, index 1. -/
theorem C3_deleteAt_amended_witness :
    DeleteQueueItem qABC 1 1 = qABC.eraseIdx (1 - 1 + 1) ∧
      QueuedJobs (DeleteQueueItem qABC 1 1) 1 =
        (QueuedJobs qABC 1).eraseIdx 1 :=
  C3_deleteAt_amended qABC 1 1 (by decide)

/-- C4: the adaptive part of `CheckStop` stops with the 403 message
exactly when counter > 50, the 403 flags are set and
count403/counter > 0.95; with the spurious-errors message exactly when
counter > 50, the error flags are set and spuriousErrorCount > 2·threads;
with the 429 message exactly when counter > 50, stopOnAll is set and
count429/counter > 0.20; and for counter ≤ 50 no adaptive stop fires. -/
theorem C4_checkStop_adaptive (cfg : Config) (s : JobState) :
    (StopEvent.stop msg403 ∈ adaptiveEvents cfg s ↔
      50 < s.counter ∧ (cfg.stopOn403 ∨ cfg.stopOnAll) ∧
        (95 / 100 : ℚ) < (s.count403 : ℚ) / (s.counter : ℚ)) ∧
    (StopEvent.stop msgSpurious ∈ adaptiveEvents cfg s ↔
      50 < s.counter ∧ (cfg.stopOnErrors ∨ cfg.stopOnAll) ∧
        cfg.threads * 2 < s.spuriousErrorCounter) ∧
    (StopEvent.stop msg429 ∈ adaptiveEvents cfg s ↔
      50 < s.counter ∧ cfg.stopOnAll ∧
        (2 / 10 : ℚ) < (s.count429 : ℚ) / (s.counter : ℚ)) ∧
    (s.counter ≤ 50 → adaptiveEvents cfg s = []) :=
  ⟨mem_adaptive_403 cfg s, mem_adaptive_spurious cfg s,
    mem_adaptive_429 cfg s, adaptiveEvents_eq_nil_of_le cfg s⟩

/-- C4 witness: with `-sf` set, 51 samples and 49 responses of status 403
(96.1%) the 403 stop fires, and at the initial state (counter 0) no
adaptive stop fires. -/
theorem C4_checkStop_adaptive_witness :
    StopEvent.stop msg403 ∈ adaptiveEvents cfgStop403 s403 ∧
      adaptiveEvents cfgStop403 sBase = [] :=
  ⟨(C4_checkStop_adaptive cfgStop403 s403).1.mpr
      (by refine ⟨by norm_num [s403, sBase], Or.inl ?_, by norm_num [s403, sBase]⟩
          norm_num [cfgStop403, cfgPlain]),
    (C4_checkStop_adaptive cfgStop403 sBase).2.2.2 (by norm_num [sBase])⟩

/-- C5 counterexample: with an always-true matcher, an oracle whose
execute fails once and succeeds on the retry, and a replay runner whose
prepare fails, `errorCount` is incremented (by the replay-prepare error at
job.go lines 372-375) even though the retry succeeded — refuting "an
execute error followed by a successful retry leaves errorCount
unchanged". -/
theorem C5_counterexample_replay_error_increments :
    (runTask cfgMatchAll 0 oRetryReplayErr false).errorIncs = 1 ∧
      ¬(runTask cfgMatchAll 0 oRetryReplayErr false).errorIncs = 0 := by
  decide

/-- C5 amended: `runTask` retries exactly once on an execute failure and
never on a prepare failure: a prepare error increments errorCount once and
returns without calling execute; a first execute error re-runs the task
with retried = true; two consecutive execute errors increment errorCount
exactly once; an execute error followed by a successful retry leaves
errorCount unchanged when no replay runner is configured, while a matched
retried result whose replay-proxy prepare fails increments errorCount by
one. -/
theorem C5_retry_policy_amended (cfg : Config) (d : Int) (o : Oracle) :
    (∀ e, o.prepare = Except.error e →
      (runTask cfg d o false).errorIncs = 1 ∧
        (runTask cfg d o false).executeCalls = 0) ∧
    (∀ e, o.prepare = Except.ok () → o.execute false = Except.error e →
      runTask cfg d o false =
        { runTask cfg d o true with
          executeCalls := (runTask cfg d o true).executeCalls + 1 }) ∧
    (∀ e1 e2, o.prepare = Except.ok () →
      o.execute false = Except.error e1 →
      o.execute true = Except.error e2 →
      (runTask cfg d o false).errorIncs = 1) ∧
    (∀ e resp, o.prepare = Except.ok () →
      o.execute false = Except.error e → o.execute true = Except.ok resp →
      o.replay = none → (runTask cfg d o false).errorIncs = 0) ∧
    (∀ e resp er, o.prepare = Except.ok () →
      o.execute false = Except.error e → o.execute true = Except.ok resp →
      o.replay = some (Except.error er) → (isMatch cfg resp).1 = true →
      (runTask cfg d o false).errorIncs = 1) := by
  refine ⟨fun e hp => ?_, fun e hp he => ?_, fun e1 e2 hp h1 h2 => ?_,
    fun e resp hp h1 h2 hr => ?_, fun e resp er hp h1 h2 hr hm => ?_⟩
  · constructor <;> simp [runTask, runTaskStep, hp, Effects.zero]
  · simp [runTask, runTaskStep, hp, he]
  · simp [runTask, runTaskStep, hp, h1, h2]
  · simp [runTask, runTaskStep, hp, h1, h2, runTaskSuccess, hr]
  · simp [runTask, runTaskStep, hp, h1, h2, runTaskSuccess, hr, hm]

/-- C5 witness for the amended theorem: a concrete prepare failure, a
concrete double execute failure, and a concrete retried success without
replay runner. -/
theorem C5_retry_policy_amended_witness :
    ((runTask cfgPlain 0 oPrepErr false).errorIncs = 1 ∧
      (runTask cfgPlain 0 oPrepErr false).executeCalls = 0) ∧
      (runTask cfgPlain 0 oBothErr false).errorIncs = 1 ∧
      (runTask cfgPlain 0 oRetryOk false).errorIncs = 0 :=
  ⟨(C5_retry_policy_amended cfgPlain 0 oPrepErr).1 errMsg rfl,
    (C5_retry_policy_amended cfgPlain 0 oBothErr).2.2.1 errMsg errMsg
      rfl rfl rfl,
    (C5_retry_policy_amended cfgPlain 0 oRetryOk).2.2.2.1 errMsg respOk
      rfl rfl rfl rfl⟩

/-- C6: `isMatch` accepts a response iff some matcher returns `ok true`
and no filter returns `ok true` (so matcher and filter errors count as
false), and a response no matcher accepts is rejected for every filter
list, i.e. without the filters deciding. -/
theorem C6_isMatch_characterization (cfg : Config) (resp : Response) :
    ((isMatch cfg resp).1 = true ↔
      (∃ m ∈ cfg.matchers, m resp = Except.ok true) ∧
        ∀ f ∈ cfg.filters, f resp ≠ Except.ok true) ∧
    ((∀ m ∈ cfg.matchers, m resp ≠ Except.ok true) →
      ∀ fs : List Pred, (isMatch { cfg with filters := fs } resp).1 = false) := by
  constructor
  · rw [isMatch_fst, Bool.and_eq_true, anyMatcher_eq_true_iff,
      Bool.not_eq_true', runFilters_eq_false_iff]
  · intro hno fs
    rw [isMatch_fst]
    have hA : anyMatcher cfg.matchers resp = false :=
      anyMatcher_eq_false cfg.matchers resp hno
    simp [hA]

/-- C6 witness: with no matchers configured the response is rejected
whatever the filters are. -/
theorem C6_isMatch_witness :
    (isMatch { cfgPlain with filters := [matchAll] } respOk).1 = false :=
  (C6_isMatch_characterization cfgPlain respOk).2 (by simp [cfgPlain])
    [matchAll]

/-- C7: under recursion with the default strategy, a successfully executed
response reaches the default recursion handler exactly when its raw
redirect location is non-empty; the handler appends a target iff the
absolute redirect location equals the request URL plus "/" and the depth
budget allows, the appended target being the request URL extended with
"/FUZZ" at depth `currentDepth + 1`; otherwise nothing is appended. -/
theorem C7_default_recursion (cfg : Config) (d : Int) (o : Oracle)
    (resp : Response) (hrec : cfg.recursion = true)
    (hstrat : cfg.recursionStrategy = "default")
    (hp : o.prepare = Except.ok ())
    (he : o.execute false = Except.ok resp) :
    (runTask cfg d o false).appended =
      (if 0 < resp.redirectRaw.length then
        handleDefaultRecursionJob cfg d resp
      else []) ∧
    (handleDefaultRecursionJob cfg d resp ≠ [] ↔
      resp.redirectAbs = resp.requestUrl ++ "/" ∧
        (cfg.recursionDepth = 0 ∨ d < cfg.recursionDepth)) ∧
    (handleDefaultRecursionJob cfg d resp =
        [{ url := resp.requestUrl ++ "/FUZZ", depth := d + 1 }] ∨
      handleDefaultRecursionJob cfg d resp = []) := by
  have hsg : ¬("default" : String) = "greedy" := by decide
  refine ⟨?_, ?_, ?_⟩
  · simp [runTask, runTaskStep, hp, he, runTaskSuccess, hrec, hstrat, hsg]
  · unfold handleDefaultRecursionJob
    split_ifs with h1 h2
    · constructor
      · intro hne
        exact absurd rfl hne
      · rintro ⟨habs, -⟩
        exact absurd habs.symm h1
    · have he1 := not_not.mp h1
      simp [← he1, h2]
    · constructor
      · intro hne
        exact absurd rfl hne
      · rintro ⟨-, hb⟩
        exact absurd hb h2
  · unfold handleDefaultRecursionJob
    rw [append_slash_fuzz resp.requestUrl] at *
    split_ifs with h1 h2 <;> simp [append_slash_fuzz]

/-- C7 witness: a directory-style redirect under default recursion appends
the trailing-slash target. -/
theorem C7_default_recursion_witness :
    (runTask cfgDefRec 0 oDir false).appended =
      (if 0 < respDir.redirectRaw.length then
        handleDefaultRecursionJob cfgDefRec 0 respDir
      else []) ∧
    (handleDefaultRecursionJob cfgDefRec 0 respDir ≠ [] ↔
      respDir.redirectAbs = respDir.requestUrl ++ "/" ∧
        (cfgDefRec.recursionDepth = 0 ∨ 0 < cfgDefRec.recursionDepth)) ∧
    (handleDefaultRecursionJob cfgDefRec 0 respDir =
        [{ url := respDir.requestUrl ++ "/FUZZ", depth := 0 + 1 }] ∨
      handleDefaultRecursionJob cfgDefRec 0 respDir = []) :=
  C7_default_recursion cfgDefRec 0 oDir respDir rfl rfl rfl rfl

/-- C8: both recursion handlers append only under the depth budget
`recursionDepth = 0 ∨ currentDepth < recursionDepth`, every appended
target has depth `currentDepth + 1` and URL `request URL ++ "/FUZZ"`, and
whenever the bound is positive, the appended depth is at most the
bound. -/
theorem C8_recursion_depth_invariant (cfg : Config) (d : Int)
    (resp : Response) (t : QueueJob)
    (h : t ∈ handleGreedyRecursionJob cfg d resp ∨
      t ∈ handleDefaultRecursionJob cfg d resp) :
    (cfg.recursionDepth = 0 ∨ d < cfg.recursionDepth) ∧
      t.depth = d + 1 ∧ t.url = resp.requestUrl ++ "/FUZZ" ∧
      (0 < cfg.recursionDepth → t.depth ≤ cfg.recursionDepth) := by
  have hu := append_slash_fuzz resp.requestUrl
  cases h with
  | inl hg =>
    unfold handleGreedyRecursionJob at hg
    split_ifs at hg with hb
    · simp only [List.mem_singleton] at hg
      subst hg
      refine ⟨hb, rfl, hu, fun hpos => ?_⟩
      simp only []
      omega
    · simp at hg
  | inr hd =>
    unfold handleDefaultRecursionJob at hd
    split_ifs at hd with h1 hb
    · simp at hd
    · simp only [List.mem_singleton] at hd
      subst hd
      refine ⟨hb, rfl, hu, fun hpos => ?_⟩
      simp only []
      omega
    · simp at hd

/-- C8 witness: under greedy recursion with depth bound 2, the target
appended at depth 0 is `http://h/admin/FUZZ` at depth 1 ≤ 2. -/
theorem C8_recursion_depth_witness :
    (cfgGreedyW.recursionDepth = 0 ∨ (0 : Int) < cfgGreedyW.recursionDepth) ∧
      jobFuzz.depth = 0 + 1 ∧
      jobFuzz.url = respOk.requestUrl ++ "/FUZZ" ∧
      (0 < cfgGreedyW.recursionDepth →
        jobFuzz.depth ≤ cfgGreedyW.recursionDepth) :=
  C8_recursion_depth_invariant cfgGreedyW 0 respOk jobFuzz
    (Or.inl (by decide))

/-- C9: `Stop()` clears the global running flag and cancels the global
token; `Next()` clears only the per-target flag, touching neither
`running` nor the token; in `CheckStop` the per-target timeout action is a
`Next` exactly when maxTimeJob > 0 and the per-target elapsed seconds
reach it, while the total timeout action is a `Stop` exactly when
maxTime > 0 and the total elapsed seconds reach it. -/
theorem C9_stop_next_and_timeouts (cfg : Config) (s : JobState)
    (eT eJ : Int) (m : String) :
    (Stop s).running = false ∧ (Stop s).cancelled = true ∧
      (Next s).runningJob = false ∧ (Next s).running = s.running ∧
      (Next s).cancelled = s.cancelled ∧
      applyEvent s (StopEvent.stop m) = Stop { s with error := m } ∧
      applyEvent s (StopEvent.next m) = Next { s with error := m } ∧
      (StopEvent.next msgMaxJob ∈ checkStopEvents cfg eT eJ s ↔
        0 < cfg.maxTimeJob ∧ cfg.maxTimeJob ≤ eJ) ∧
      (StopEvent.stop msgMaxTime ∈ checkStopEvents cfg eT eJ s ↔
        0 < cfg.maxTime ∧ cfg.maxTime ≤ eT) := by
  refine ⟨rfl, rfl, rfl, rfl, rfl, rfl, rfl, ?_, ?_⟩
  · unfold checkStopEvents
    rw [List.mem_append, mem_time_next]
    simp [next_not_mem_adaptive cfg s msgMaxJob]
  · unfold checkStopEvents
    rw [List.mem_append, mem_time_stop_maxTime]
    simp [stop_maxTime_not_mem_adaptive cfg s]

/-- C10: `Reset(cycle)` zeroes `Counter`, clears `skipQueue`, records the
new `startTimeJob` and resets the input provider, leaving every other Job
field unchanged — in particular the error, spurious-error, 403 and 429
counters, the queue and the queue cursor — so the adaptive 403 stop after
a reset compares the count403 accumulated over earlier targets against the
fresh per-target counter. -/
theorem C10_reset_frame (s : JobState) (cycle : Bool) (now : Int) :
    (Reset s cycle now).counter = 0 ∧
      (Reset s cycle now).skipQueue = false ∧
      (Reset s cycle now).startTimeJob = now ∧
      (Reset s cycle now).inputPos = 0 ∧
      (Reset s cycle now).errorCounter = s.errorCounter ∧
      (Reset s cycle now).spuriousErrorCounter = s.spuriousErrorCounter ∧
      (Reset s cycle now).count403 = s.count403 ∧
      (Reset s cycle now).count429 = s.count429 ∧
      (Reset s cycle now).queuejobs = s.queuejobs ∧
      (Reset s cycle now).queuepos = s.queuepos ∧
      (Reset s cycle now).total = s.total ∧
      (Reset s cycle now).running = s.running ∧
      (Reset s cycle now).runningJob = s.runningJob ∧
      (Reset s cycle now).paused = s.paused ∧
      (Reset s cycle now).error = s.error ∧
      (Reset s cycle now).startTime = s.startTime ∧
      (Reset s cycle now).currentDepth = s.currentDepth ∧
      (Reset s cycle now).cancelled = s.cancelled ∧
      ∀ (cfg : Config) (k : Int),
        StopEvent.stop msg403 ∈
            adaptiveEvents cfg { Reset s cycle now with counter := k } ↔
          50 < k ∧ (cfg.stopOn403 ∨ cfg.stopOnAll) ∧
            (95 / 100 : ℚ) < (s.count403 : ℚ) / (k : ℚ) := by
  refine ⟨rfl, rfl, rfl, rfl, rfl, rfl, rfl, rfl, rfl, rfl, rfl, rfl, rfl,
    rfl, rfl, rfl, rfl, rfl, ?_⟩
  intro cfg k
  simpa [Reset] using
    mem_adaptive_403 cfg { Reset s cycle now with counter := k }

end FfufSpec
